import Mathlib

/-!
Shallow embedding of lustre/utils/mount_utils_zfs.c: the bridge between the
Lustre on-disk metadata record (struct lustre_disk_data) and ZFS dataset user
properties.  The external libzfs collaborators are modelled as follows:
the user-property nvlist of the dataset is an association list from property
names to string values, zfs_prop_set always stores the pair and reports
success, and the outcomes of zfs_open calls are supplied by an environment
record.  Diagnostic output (vprint, fprintf, fatal) is not modelled; warnings
that decide a claim are reported as a boolean.
-/

set_option autoImplicit false

namespace MountUtilsZfs

/-- POSIX error code ENOENT. -/
def ENOENT : Nat := 2

/-- POSIX error code ENOMEM. -/
def ENOMEM : Nat := 12

/-- POSIX error code EINVAL. -/
def EINVAL : Nat := 22

/-- POSIX error code ERANGE, set by strtoul on overflow. -/
def ERANGE : Nat := 34

/-- POSIX error code ENOSYS. -/
def ENOSYS : Nat := 38

/-- Namespace token put in front of every Lustre dataset property. -/
def LDD_PREFIX : String := "lustre:"

def LDD_VERSION_PROP : String := LDD_PREFIX ++ "version"

def LDD_FLAGS_PROP : String := LDD_PREFIX ++ "flags"

def LDD_INDEX_PROP : String := LDD_PREFIX ++ "index"

def LDD_FSNAME_PROP : String := LDD_PREFIX ++ "fsname"

def LDD_SVNAME_PROP : String := LDD_PREFIX ++ "svname"

def LDD_UUID_PROP : String := LDD_PREFIX ++ "uuid"

def LDD_USERDATA_PROP : String := LDD_PREFIX ++ "userdata"

def LDD_MOUNTOPTS_PROP : String := LDD_PREFIX ++ "mountopts"

/-- Modelled from the spec: the mount-type constant LDD_MT_ZFS stamped into the
metadata record on a successful read lives in a header outside src; the spec
only requires it to be a fixed constant identifying the ZFS backend. -/
def LDD_MT_ZFS : Nat := 5

/-- Modelled from the spec: the LDD_F_NEED_INDEX flag bit of ldd_flags is
defined in a header outside src; only its being a fixed nonzero bit matters
here. -/
def LDD_F_NEED_INDEX : Nat := 16

/-- Modelled from the spec: the PARAM_FAILNODE token searched for in the
parameter blob is defined in a header outside src; the spec names failnode as
the option and uses the token failnode=1 in its testable property. -/
def PARAM_FAILNODE : String := "failnode"

/-- The user-property nvlist of a dataset: property name to string value,
in enumeration order. -/
abbrev PropStore := List (String × String)

/-- nvlist_lookup_nvlist followed by nvlist_lookup_string on ZPROP_VALUE:
find the value stored under a property name. -/
def nvlist_lookup : PropStore → String → Option String
  | [], _ => none
  | (k, v) :: rest, name => if k = name then some v else nvlist_lookup rest name

/-- Store a property value, replacing an existing entry of the same name. -/
def storePut : PropStore → String → String → PropStore
  | [], k, v => [(k, v)]
  | (k0, v0) :: rest, k, v =>
    if k0 = k then (k, v) :: rest else (k0, v0) :: storePut rest k v

/-- The external zfs_prop_set API call; the store is modelled as accepting
every write, so the returned code is always 0.  The error-propagation
structure of the callers is nevertheless kept. -/
def zfs_prop_set (st : PropStore) (prop : String) (value : String) : Nat × PropStore :=
  (0, storePut st prop value)

/-- Characters treated as leading whitespace by strtoul. -/
def isSpaceChar (c : Char) : Bool :=
  c = ' ' || c = '\t' || c = '\n' || c = '\r'

/-- Value of a list of decimal digit characters, most significant first. -/
def decValue (cs : List Char) : Nat :=
  cs.foldl (fun acc c => acc * 10 + (c.toNat - 48)) 0

/-- Strip the optional leading sign, reporting whether it was a minus. -/
def stripSign : List Char → Bool × List Char
  | [] => (false, [])
  | c :: rest =>
    if c = '-' then (true, rest)
    else if c = '+' then (false, rest)
    else (false, c :: rest)

/-- The conversion step of strtoul with a 64-bit unsigned long: the decimal
digit run gives the magnitude; overflow yields ULONG_MAX and errno ERANGE; a
minus sign negates modulo 2 ^ 64. -/
def strtoulCore (signed : Bool × List Char) : Nat × Nat :=
  if 2 ^ 64 - 1 < decValue (signed.2.takeWhile Char.isDigit) then (2 ^ 64 - 1, ERANGE)
  else if signed.1 then
    ((2 ^ 64 - decValue (signed.2.takeWhile Char.isDigit)) % 2 ^ 64, 0)
  else (decValue (signed.2.takeWhile Char.isDigit), 0)

/-- strtoul(s, NULL, 10) with a 64-bit unsigned long: skip leading
whitespace, take an optional sign, read decimal digits.  Returns the value
and the resulting errno (ERANGE when the magnitude overflows, else 0). -/
def strtoul64 (s : String) : Nat × Nat :=
  strtoulCore (stripSign (s.data.dropWhile isSpaceChar))

/-- Decimal digit characters of n, most significant first, with structural
fuel (n + 1 units always suffice because n shrinks each step). -/
def natToDecCharsAux : Nat → Nat → List Char
  | 0, _ => []
  | fuel + 1, n =>
    if n < 10 then [Char.ofNat (48 + n % 10)]
    else natToDecCharsAux fuel (n / 10) ++ [Char.ofNat (48 + n % 10)]

/-- Decimal digit characters of n, most significant first. -/
def natToDecChars (n : Nat) : List Char :=
  natToDecCharsAux (n + 1) n

/-- snprintf(str, 64, "%i", *(int *)val): the 32-bit field is printed as a
signed decimal, so values at or above 2 ^ 31 print with a leading minus. -/
def fmtInt32 (v : Nat) : String :=
  if v % 2 ^ 32 < 2 ^ 31 then String.mk (natToDecChars (v % 2 ^ 32))
  else String.mk ('-' :: natToDecChars (2 ^ 32 - v % 2 ^ 32))

/-- zfs_set_prop_int: format the integer field with %i and store it. -/
def zfs_set_prop_int (st : PropStore) (prop : String) (val : Nat) : Nat × PropStore :=
  zfs_prop_set st prop (fmtInt32 val)

/-- zfs_set_prop_str: a NULL (none) or zero-length value is silently not
written and 0 is returned; otherwise the raw string is stored. -/
def zfs_set_prop_str (st : PropStore) (prop : String) (val : Option String) : Nat × PropStore :=
  match val with
  | some s => if 0 < s.length then zfs_prop_set st prop s else (0, st)
  | none => (0, st)

/-- zfs_get_prop_int: look the property up (ENOENT when absent), parse it
with strtoul and truncate the unsigned long to a __u32; a nonzero errno from
the parse is returned as the error. -/
def zfs_get_prop_int (st : PropStore) (prop : String) : Except Nat Nat :=
  match nvlist_lookup st prop with
  | none => Except.error ENOENT
  | some propstr =>
    let r := strtoul64 propstr
    if r.2 ≠ 0 then Except.error r.2 else Except.ok (r.1 % 2 ^ 32)

/-- zfs_get_prop_str: look the property up and hand the string back
(the C copies it into the caller buffer with an unchecked strcpy). -/
def zfs_get_prop_str (st : PropStore) (prop : String) : Except Nat String :=
  match nvlist_lookup st prop with
  | none => Except.error ENOENT
  | some propstr => Except.ok propstr

/-- struct lustre_disk_data, restricted to the fields this file touches.
The C accesses fields through offsets into the flat structure; named fields
with explicit accessors carry the same information. -/
structure lustre_disk_data where
  ldd_config_ver : Nat
  ldd_flags : Nat
  ldd_svindex : Nat
  ldd_fsname : String
  ldd_svname : String
  ldd_uuid : String
  ldd_userdata : String
  ldd_mount_opts : String
  ldd_params : String
  ldd_mount_type : Nat
deriving DecidableEq

/-- In place of the C offset plus function-pointer pair, a bridge entry
carries a typed getter/setter pair for its lustre_disk_data field. -/
inductive ZlpbAccessor where
  | acInt (get : lustre_disk_data → Nat) (set : Nat → lustre_disk_data → lustre_disk_data)
  | acStr (get : lustre_disk_data → String) (set : String → lustre_disk_data → lustre_disk_data)

/-- struct zfs_ldd_prop_bridge: property name together with the typed
accessors for the corresponding lustre_disk_data field. -/
structure zfs_ldd_prop_bridge where
  zlpb_prop_name : String
  zlpb_accessor : ZlpbAccessor

/-- special_ldd_prop_params: the fixed bridge table (the NULL sentinel entry
of the C array corresponds to the end of the list). -/
def special_ldd_prop_params : List zfs_ldd_prop_bridge :=
  [⟨ LDD_VERSION_PROP, ZlpbAccessor.acInt (fun l => l.ldd_config_ver)
      (fun v l => { l with ldd_config_ver := v })⟩,
   ⟨ LDD_FLAGS_PROP, ZlpbAccessor.acInt (fun l => l.ldd_flags)
      (fun v l => { l with ldd_flags := v })⟩,
   ⟨ LDD_INDEX_PROP, ZlpbAccessor.acInt (fun l => l.ldd_svindex)
      (fun v l => { l with ldd_svindex := v })⟩,
   ⟨ LDD_FSNAME_PROP, ZlpbAccessor.acStr (fun l => l.ldd_fsname)
      (fun v l => { l with ldd_fsname := v })⟩,
   ⟨ LDD_SVNAME_PROP, ZlpbAccessor.acStr (fun l => l.ldd_svname)
      (fun v l => { l with ldd_svname := v })⟩,
   ⟨ LDD_UUID_PROP, ZlpbAccessor.acStr (fun l => l.ldd_uuid)
      (fun v l => { l with ldd_uuid := v })⟩,
   ⟨ LDD_USERDATA_PROP, ZlpbAccessor.acStr (fun l => l.ldd_userdata)
      (fun v l => { l with ldd_userdata := v })⟩,
   ⟨ LDD_MOUNTOPTS_PROP, ZlpbAccessor.acStr (fun l => l.ldd_mount_opts)
      (fun v l => { l with ldd_mount_opts := v })⟩]

/-- Worker for splitTokens: acc holds the characters of the token being
built, in reverse. -/
def splitTokensAux (delim : Char) : List Char → List Char → List (List Char)
  | [], acc => if acc.isEmpty then [] else [acc.reverse]
  | c :: rest, acc =>
    if c = delim then
      if acc.isEmpty then splitTokensAux delim rest []
      else acc.reverse :: splitTokensAux delim rest []
    else splitTokensAux delim rest (c :: acc)

/-- Successive strtok calls with a one-character delimiter set: the maximal
nonempty delimiter-free runs, in order. -/
def splitTokens (delim : Char) (cs : List Char) : List (List Char) :=
  splitTokensAux delim cs []

/-- strtok_r(params, " ", ...) driven to completion: the maximal nonempty
space-free substrings of the parameter blob, in order. -/
def tokenize (s : String) : List String :=
  (splitTokens ' ' s.data).map (fun cs => String.mk cs)

/-- The while loop of zfs_set_prop_params, with explicit fuel.  Each token is
split on the equals sign exactly as the two strtok calls do (nonempty
segments); when the key or the value is absent the C executes continue
WITHOUT advancing token, so the loop retries the very same token, which the
fuel-indexed model reports as none (no result for any amount of fuel). -/
def set_prop_params_loop : Nat → PropStore → List String → Option (Nat × PropStore)
  | 0, _, _ => none
  | _ + 1, st, [] => some (0, st)
  | fuel + 1, st, tok :: rest =>
    match (splitTokens '=' tok.data).get? 0 with
    | none => set_prop_params_loop fuel st (tok :: rest)
    | some key =>
      match (splitTokens '=' tok.data).get? 1 with
      | none => set_prop_params_loop fuel st (tok :: rest)
      | some value =>
        let prop_name := LDD_PREFIX ++ String.mk key
        let r := zfs_prop_set st prop_name (String.mk value)
        if r.1 ≠ 0 then some (r.1, r.2) else set_prop_params_loop fuel r.2 rest

/-- zfs_set_prop_params: map key=value pairs of the blob to lustre: prefixed
dataset properties.  The strdup allocation is modelled as succeeding. -/
def zfs_set_prop_params (fuel : Nat) (st : PropStore) (params : String) :
    Option (Nat × PropStore) :=
  set_prop_params_loop fuel st (tokenize params)

/-- zfs_is_special_ldd_prop_param: does the name match a bridge entry. -/
def zfs_is_special_ldd_prop_param (name : String) : Bool :=
  (special_ldd_prop_params.map (fun b => b.zlpb_prop_name)).contains name

/-- Modelled from the spec: add_param lives in mount_utils.c, outside src.
Per the spec the bulk read appends the pair followed by a space to the
accumulating blob; the key handed over by the caller already carries the
trailing equals sign.  Capacity checking of the real helper is not modelled. -/
def add_param (param : String) (key : String) (value : String) : Nat × String :=
  (0, param ++ key ++ value ++ " ")

/-- The nvpair enumeration loop of zfs_get_prop_params: fetch every value,
skip names outside the lustre: namespace, skip well-known bridge names, and
append the remaining pairs to the blob.  Any fetch or append failure stops
the walk and is returned. -/
def get_prop_params_loop (st : PropStore) : List (String × String) → String → Nat × String
  | [], param => (0, param)
  | nvp :: rest, param =>
    match zfs_get_prop_str st nvp.1 with
    | Except.error e => (e, param)
    | Except.ok value =>
      if ( LDD_PREFIX.data.isPrefixOf nvp.1.data) = false then get_prop_params_loop st rest param
      else if zfs_is_special_ldd_prop_param nvp.1 then get_prop_params_loop st rest param
      else
        let key := String.mk (nvp.1.data.drop ( LDD_PREFIX.data.length)) ++ "="
        let ares := add_param param key value
        if ares.1 ≠ 0 then (ares.1, param) else get_prop_params_loop st rest ares.2

/-- zfs_get_prop_params: walk the user-property nvlist of the dataset and
rebuild the free-form parameter blob.  The len argument sizes the C scratch
buffer for values (a malloc modelled as succeeding). -/
def zfs_get_prop_params (st : PropStore) (param : String) (_len : Nat) : Nat × String :=
  get_prop_params_loop st st param

/-- Outcome of reading one of the host-id files: fopen failure (with errno),
fscanf or fread failure (with the code the C returns or substitutes), or a
parsed value. -/
inductive FileRead where
  | openFail (errno : Nat)
  | readFail (rc : Nat)
  | okVal (v : Nat)
deriving DecidableEq

/-- External inputs of zfs_check_hostid: the spl_hostid kernel-module
parameter file and the fixed /etc/hostid file. -/
structure HostidEnv where
  spl_hostid : FileRead
  etc_hostid : FileRead
deriving DecidableEq

/-- The mkfs_opts flag bits consulted by this file, as booleans; the numeric
bit values live in a header outside src. -/
structure MkfsFlags where
  mo_nohostid_check : Bool
  mo_forceformat : Bool
deriving DecidableEq

/-- struct mkfs_opts, restricted to what the bridge consults. -/
structure mkfs_opts where
  mo_ldd : lustre_disk_data
  mo_device : String
  mo_flags : MkfsFlags
deriving DecidableEq

/-- struct mount_opts, restricted to what zfs_label_lustre consults. -/
structure mount_opts where
  mo_source : String
  mo_ldd : lustre_disk_data
deriving DecidableEq

/-- strstr(s, pat) != NULL: pat occurs as a substring of s. -/
def strstrB (s pat : List Char) : Bool :=
  pat.isPrefixOf s ||
    match s with
    | [] => false
    | _ :: t => strstrB t pat

/-- The host id resolved from the /etc/hostid fallback: an unreadable file
(goto out) or a short read both leave the id at zero. -/
def etcHostidValue (henv : HostidEnv) : Nat :=
  match henv.etc_hostid with
  | FileRead.openFail _ => 0
  | FileRead.readFail _ => 0
  | FileRead.okVal v => v

/-- zfs_check_hostid: run only when the parameter blob mentions
PARAM_FAILNODE.  Read spl_hostid; a nonzero value passes.  On zero, fall
back to /etc/hostid (an unreadable or short file leaves the id zero).  A
still-zero id warns when MO_NOHOSTID_CHECK is set, else fails with EINVAL.
Returns the code and whether the warning was printed. -/
def zfs_check_hostid (henv : HostidEnv) (mop : mkfs_opts) : Nat × Bool :=
  if strstrB mop.mo_ldd.ldd_params.data PARAM_FAILNODE.data = false then (0, false)
  else
    match henv.spl_hostid with
    | FileRead.openFail e => (e, false)
    | FileRead.readFail rc => (rc, false)
    | FileRead.okVal h1 =>
      if h1 ≠ 0 then (0, false)
      else
        if etcHostidValue henv = 0 then
          if mop.mo_flags.mo_nohostid_check then (0, true) else (EINVAL, false)
        else (0, false)

/-- The external collaborators of one bridge operation on one dataset:
the global ready flag osd_zfs_setup, whether zfs_open succeeds for the
filesystem and for the snapshot type, the user-property nvlist of the
dataset, the zfs_name_valid verdict, and the outcome of the shelled-out
pool/dataset provisioning phase of zfs_make_lustre. -/
structure ZfsEnv where
  osd_zfs_setup : Nat
  openFs : Bool
  openSnap : Bool
  props : PropStore
  nameValid : Bool
  provisionResult : Nat
deriving DecidableEq

/-- osd_check_zfs_setup: report whether the library was initialized. -/
def osd_check_zfs_setup (env : ZfsEnv) : Bool :=
  env.osd_zfs_setup == 1

/-- The bridge-table for loop of zfs_write_ldd: write every entry, aborting
on the first nonzero code. -/
def bridgeWriteLoop (ldd : lustre_disk_data) :
    List zfs_ldd_prop_bridge → PropStore → Nat × PropStore
  | [], st => (0, st)
  | b :: rest, st =>
    let r :=
      match b.zlpb_accessor with
      | ZlpbAccessor.acInt g _ => zfs_set_prop_int st b.zlpb_prop_name (g ldd)
      | ZlpbAccessor.acStr g _ => zfs_set_prop_str st b.zlpb_prop_name (some (g ldd))
    if r.1 ≠ 0 then (r.1, r.2) else bridgeWriteLoop ldd rest r.2

/-- zfs_write_ldd.  The result carries the returned code, the final property
store, and how many zfs_open and zfs_close calls were executed, so the
handle discipline is visible; none means the bulk write ran out of fuel.
Mirrors the C control flow: a failing osd check or open returns the initial
EINVAL having opened nothing; a failing host-id check executes goto out,
which is BELOW the out_close label, so the open handle is not closed. -/
def zfs_write_ldd (env : ZfsEnv) (henv : HostidEnv) (fuel : Nat) (mop : mkfs_opts) :
    Option (Nat × PropStore × Nat × Nat) :=
  if osd_check_zfs_setup env = false then some (EINVAL, env.props, 0, 0)
  else if env.openFs = false then some (EINVAL, env.props, 0, 0)
  else
    let hres := zfs_check_hostid henv mop
    if hres.1 ≠ 0 then some (hres.1, env.props, 1, 0)
    else
      let bres := bridgeWriteLoop mop.mo_ldd special_ldd_prop_params env.props
      if bres.1 ≠ 0 then some (bres.1, bres.2, 1, 1)
      else
        match zfs_set_prop_params fuel bres.2 mop.mo_ldd.ldd_params with
        | none => none
        | some r => some (r.1, r.2, 1, 1)

/-- The bridge-table for loop of zfs_read_ldd: read every entry into the
record; ENOENT skips the entry, any other code aborts with the partially
filled record. -/
def bridgeReadLoop (st : PropStore) :
    List zfs_ldd_prop_bridge → lustre_disk_data →
      Except (Nat × lustre_disk_data) lustre_disk_data
  | [], ldd => Except.ok ldd
  | b :: rest, ldd =>
    match b.zlpb_accessor with
    | ZlpbAccessor.acInt _ s =>
      match zfs_get_prop_int st b.zlpb_prop_name with
      | Except.ok v => bridgeReadLoop st rest (s v ldd)
      | Except.error e =>
        if e ≠ ENOENT then Except.error (e, ldd) else bridgeReadLoop st rest ldd
    | ZlpbAccessor.acStr _ s =>
      match zfs_get_prop_str st b.zlpb_prop_name with
      | Except.ok v => bridgeReadLoop st rest (s v ldd)
      | Except.error e =>
        if e ≠ ENOENT then Except.error (e, ldd) else bridgeReadLoop st rest ldd

/-- The outcome of one bridge-table read step in isolation: the getter of
the entry at its property name, storing the field on success. -/
def bridgeGetResult (st : PropStore) (b : zfs_ldd_prop_bridge) (ldd : lustre_disk_data) :
    Except Nat lustre_disk_data :=
  match b.zlpb_accessor with
  | ZlpbAccessor.acInt _ s => (zfs_get_prop_int st b.zlpb_prop_name).map (fun v => s v ldd)
  | ZlpbAccessor.acStr _ s => (zfs_get_prop_str st b.zlpb_prop_name).map (fun v => s v ldd)

/-- zfs_read_ldd: open the dataset as a filesystem, falling back to a
snapshot open; run the bridge table and the bulk codec in read mode with
ENOENT treated as non-fatal; on success stamp ldd_mount_type with LDD_MT_ZFS
and return 0.  The result carries the code, the resulting record, and the
zfs_open / zfs_close counts. -/
def zfs_read_ldd (env : ZfsEnv) (_ds : String) (ldd : lustre_disk_data) :
    Nat × lustre_disk_data × Nat × Nat :=
  if osd_check_zfs_setup env = false then (EINVAL, ldd, 0, 0)
  else if env.openFs = false ∧ env.openSnap = false then (EINVAL, ldd, 0, 0)
  else
    match bridgeReadLoop env.props special_ldd_prop_params ldd with
    | Except.error r => (r.1, r.2, 1, 1)
    | Except.ok ldd2 =>
      let pres := zfs_get_prop_params env.props ldd2.ldd_params 4096
      if pres.1 ≠ 0 ∧ pres.1 ≠ ENOENT then
        (pres.1, { ldd2 with ldd_params := pres.2 }, 1, 1)
      else
        (0, { ldd2 with ldd_params := pres.2, ldd_mount_type := LDD_MT_ZFS }, 1, 1)

/-- zfs_is_lustre: probe the dataset with a full read into a stack scratch
record.  The C never initializes tmp_ldd, so the scratch record's initial
contents are an explicit argument of the model.  Returns the 0/1 verdict and
the value stored through the mount_type output pointer, when any. -/
def zfs_is_lustre (env : ZfsEnv) (ds : String) (scratch : lustre_disk_data) :
    Nat × Option Nat :=
  if env.osd_zfs_setup = 0 then (0, none)
  else
    let r := zfs_read_ldd env ds scratch
    if r.1 = 0 ∧ 0 < r.2.1.ldd_config_ver ∧ 0 < r.2.1.ldd_svname.length then
      (1, some r.2.1.ldd_mount_type)
    else (0, none)

/-- zfs_make_lustre, through its validation phase: ready check, refusal of
automatic index selection, host-id check.  The remainder (allocations, the
optional destroy under the force-format flag, and the shelled-out zpool and
zfs create commands) acts only on external collaborators and its outcome is
supplied by the environment as provisionResult. -/
def zfs_make_lustre (env : ZfsEnv) (henv : HostidEnv) (mop : mkfs_opts) : Nat :=
  if osd_check_zfs_setup env = false then EINVAL
  else if mop.mo_ldd.ldd_flags.land LDD_F_NEED_INDEX ≠ 0 then EINVAL
  else
    let hres := zfs_check_hostid henv mop
    if hres.1 ≠ 0 then hres.1
    else env.provisionResult

/-- zfs_prepare_lustre: ready check, zfs_name_valid check (verdict supplied
by the environment), and the pool separator check on the device name. -/
def zfs_prepare_lustre (env : ZfsEnv) (mop : mkfs_opts) : Nat :=
  if osd_check_zfs_setup env = false then EINVAL
  else if env.nameValid = false then EINVAL
  else if mop.mo_device.contains '/' = false then EINVAL
  else 0

/-- zfs_tune_lustre: ready check only. -/
def zfs_tune_lustre (env : ZfsEnv) (_dev : String) (_mop : mount_opts) : Nat :=
  if osd_check_zfs_setup env = false then EINVAL else 0

/-- zfs_label_lustre: open the dataset, write the service-name property,
close.  Result carries code, store, and the open / close counts. -/
def zfs_label_lustre (env : ZfsEnv) (mop : mount_opts) : Nat × PropStore × Nat × Nat :=
  if osd_check_zfs_setup env = false then (EINVAL, env.props, 0, 0)
  else if env.openFs = false then (EINVAL, env.props, 0, 0)
  else
    let r := zfs_set_prop_str env.props LDD_SVNAME_PROP (some mop.mo_ldd.ldd_svname)
    (r.1, r.2, 1, 1)

/-- zfs_enable_quota: prints a diagnostic and returns ENOSYS unconditionally;
the global ready flag in the environment is never consulted. -/
def zfs_enable_quota (_env : ZfsEnv) (_mop : mkfs_opts) : Nat :=
  ENOSYS

/-! Concrete fixtures used by witnesses and counterexamples. -/

/-- An all-zero metadata record. -/
def ldd0 : lustre_disk_data :=
  ⟨0, 0, 0, "", "", "", "", "", "", 0⟩

/-- Ready library, filesystem open succeeds, empty user-property set. -/
def envReadyOpen : ZfsEnv :=
  ⟨1, true, false, [], true, 0⟩

/-- Library never initialized. -/
def envNotReady : ZfsEnv :=
  ⟨0, true, false, [], true, 0⟩

/-- Ready library; dataset carries one well-known property. -/
def envFlagsOnly : ZfsEnv :=
  ⟨1, true, false, [("lustre:flags", "66")], true, 0⟩

/-- Ready library; only the snapshot open succeeds. -/
def envSnapOnly : ZfsEnv :=
  ⟨1, false, true, [("lustre:version", "7")], true, 0⟩

/-- Ready library; neither open succeeds. -/
def envNoOpen : ZfsEnv :=
  ⟨1, false, false, [], true, 0⟩

/-- spl_hostid reads as zero, /etc/hostid cannot be opened. -/
def henvZeroId : HostidEnv :=
  ⟨FileRead.okVal 0, FileRead.openFail 2⟩

/-- mkfs options with no parameters and no flags. -/
def mop0 : mkfs_opts :=
  ⟨ldd0, "tank/ost1", ⟨false, false⟩⟩

/-- mkfs options whose parameter blob carries the failnode token. -/
def mopFailnode : mkfs_opts :=
  ⟨{ ldd0 with ldd_params := "failnode=1" }, "tank/ost1", ⟨false, false⟩⟩

/-- Same as mopFailnode with the skip-hostid-check flag set. -/
def mopFailnodeSkip : mkfs_opts :=
  ⟨{ ldd0 with ldd_params := "failnode=1" }, "tank/ost1", ⟨true, false⟩⟩

/-- mount options naming a dataset. -/
def mnt0 : mount_opts :=
  ⟨"tank/ost1", ldd0⟩

/-- A possible content of the never-initialized stack scratch record of
zfs_is_lustre: positive version, non-empty service name. -/
def garbageScratch : lustre_disk_data :=
  ⟨1, 0, 0, "", "OST0000", "", "", "", "", 0⟩

/-! Helper lemmas. -/

theorem lookup_storePut_self (st : PropStore) (k v : String) :
    nvlist_lookup (storePut st k v) k = some v := by
  induction st with
  | nil => simp [storePut, nvlist_lookup]
  | cons p rest ih =>
    obtain ⟨k0, v0⟩ := p
    by_cases h : k0 = k
    · simp [storePut, h, nvlist_lookup]
    · simp [storePut, h, nvlist_lookup, ih]

theorem digit_char_toNat {d : Nat} (h : d < 10) :
    (Char.ofNat (48 + d)).toNat = 48 + d := by
  interval_cases d <;> decide

theorem digit_char_isDigit {d : Nat} (h : d < 10) :
    (Char.ofNat (48 + d)).isDigit = true := by
  interval_cases d <;> decide

theorem natToDecCharsAux_all_digits :
    ∀ fuel n c, c ∈ natToDecCharsAux fuel n → c.isDigit = true := by
  intro fuel
  induction fuel with
  | zero => intro n c hc; simp [natToDecCharsAux] at hc
  | succ f ih =>
    intro n c hc
    by_cases h10 : n < 10
    · simp [natToDecCharsAux, h10] at hc
      subst hc
      exact digit_char_isDigit (Nat.mod_lt _ (by omega))
    · simp [natToDecCharsAux, h10] at hc
      rcases hc with hc | hc
      · exact ih _ _ hc
      · subst hc
        exact digit_char_isDigit (Nat.mod_lt _ (by omega))

theorem natToDecCharsAux_ne_nil :
    ∀ fuel n, 0 < fuel → natToDecCharsAux fuel n ≠ [] := by
  intro fuel n hf
  match fuel, hf with
  | f + 1, _ =>
    by_cases h10 : n < 10 <;> simp [natToDecCharsAux, h10]

theorem decValue_append_digit (cs : List Char) (c : Char) :
    decValue (cs ++ [c]) = decValue cs * 10 + (c.toNat - 48) := by
  simp [decValue, List.foldl_append]

theorem decValue_natToDecCharsAux :
    ∀ fuel n, n < fuel → decValue (natToDecCharsAux fuel n) = n := by
  intro fuel
  induction fuel with
  | zero => omega
  | succ f ih =>
    intro n hn
    by_cases h10 : n < 10
    · have hm : n % 10 = n := Nat.mod_eq_of_lt h10
      simp [natToDecCharsAux, h10, decValue, hm]
      rw [digit_char_toNat h10]
      omega
    · have hdiv : n / 10 < f := by
        have h1 : n / 10 < n := Nat.div_lt_self (by omega) (by omega)
        omega
      rw [natToDecCharsAux]
      simp only [h10, if_false]
      rw [decValue_append_digit, ih _ hdiv, digit_char_toNat (Nat.mod_lt n (by omega))]
      omega

theorem decValue_natToDecChars (n : Nat) :
    decValue (natToDecChars n) = n :=
  decValue_natToDecCharsAux (n + 1) n (Nat.lt_succ_self n)

theorem natToDecChars_all_digits {n : Nat} {c : Char} (hc : c ∈ natToDecChars n) :
    c.isDigit = true :=
  natToDecCharsAux_all_digits (n + 1) n c hc

theorem natToDecChars_ne_nil (n : Nat) : natToDecChars n ≠ [] :=
  natToDecCharsAux_ne_nil (n + 1) n (Nat.succ_pos n)

theorem space_not_digit {c : Char} (hs : isSpaceChar c = true) : c.isDigit = false := by
  simp only [isSpaceChar, Bool.or_eq_true, decide_eq_true_eq] at hs
  rcases hs with ((h | h) | h) | h <;> subst h <;> decide

theorem digit_not_space {c : Char} (h : c.isDigit = true) : isSpaceChar c = false := by
  by_cases hs : isSpaceChar c = true
  · rw [space_not_digit hs] at h; cases h
  · simpa using hs

theorem digit_ne_minus {c : Char} (h : c.isDigit = true) : c ≠ '-' := by
  intro he; subst he; cases h

theorem digit_ne_plus {c : Char} (h : c.isDigit = true) : c ≠ '+' := by
  intro he; subst he; cases h

theorem takeWhile_all_digits :
    ∀ (l : List Char), (∀ c ∈ l, c.isDigit = true) → l.takeWhile Char.isDigit = l := by
  intro l
  induction l with
  | nil => simp
  | cons c t ih =>
    intro h
    have hc : c.isDigit = true := h c (by simp)
    simp [List.takeWhile_cons, hc, ih fun x hx => h x (by simp [hx])]

theorem dropWhile_not_space_head (c : Char) (t : List Char) (h : isSpaceChar c = false) :
    (c :: t).dropWhile isSpaceChar = c :: t := by
  simp [List.dropWhile, h]

theorem stripSign_digit_head (c : Char) (t : List Char) (h : c.isDigit = true) :
    stripSign (c :: t) = (false, c :: t) := by
  simp [stripSign, digit_ne_minus h, digit_ne_plus h]

theorem strtoul64_digits (l : List Char) (hne : l ≠ []) (hall : ∀ c ∈ l, c.isDigit = true)
    (hv : decValue l ≤ 2 ^ 31) :
    strtoul64 (String.mk l) = (decValue l, 0) := by
  obtain ⟨c, t, rfl⟩ := List.exists_cons_of_ne_nil hne
  have hcd : c.isDigit = true := hall c (by simp)
  have hdata : (String.mk (c :: t)).data = c :: t := rfl
  simp only [strtoul64, hdata, dropWhile_not_space_head c t (digit_not_space hcd),
    stripSign_digit_head c t hcd]
  simp only [strtoulCore, takeWhile_all_digits _ hall]
  have hno : ¬ (2 ^ 64 - 1 < decValue (c :: t)) := by omega
  rw [if_neg hno]
  simp

theorem strtoul64_neg_digits (l : List Char) (hall : ∀ c ∈ l, c.isDigit = true)
    (hv : decValue l ≤ 2 ^ 31) :
    strtoul64 (String.mk ('-' :: l)) = ((2 ^ 64 - decValue l) % 2 ^ 64, 0) := by
  have hdata : (String.mk ('-' :: l)).data = '-' :: l := rfl
  have hm : isSpaceChar '-' = false := by decide
  simp only [strtoul64, hdata, dropWhile_not_space_head '-' l hm]
  have hstrip : stripSign ('-' :: l) = (true, l) := by simp [stripSign]
  simp only [hstrip]
  simp only [strtoulCore, takeWhile_all_digits _ hall]
  have hno : ¬ (2 ^ 64 - 1 < decValue l) := by omega
  rw [if_neg hno]
  simp

/-! Claim theorems. -/

/-- Claim C9: zfs_set_prop_str with a null or zero-length value performs no
property-store call and returns 0; hence reading back a field that was never
set yields the pre-existing value, while write-then-read of a non-empty
value yields that identical value. -/
theorem zfs_set_prop_str_empty_noop_roundtrip (st : PropStore) (prop : String) :
    zfs_set_prop_str st prop none = (0, st) ∧
    zfs_set_prop_str st prop (some "") = (0, st) ∧
    (∀ v : Option String, v = none ∨ v = some "" →
      zfs_get_prop_str (zfs_set_prop_str st prop v).2 prop = zfs_get_prop_str st prop) ∧
    (∀ s : String, 0 < s.length →
      zfs_get_prop_str (zfs_set_prop_str st prop (some s)).2 prop = Except.ok s) := by
  refine ⟨rfl, rfl, ?_, ?_⟩
  · intro v hv
    rcases hv with hv | hv <;> subst hv <;> rfl
  · intro s hs
    simp [zfs_set_prop_str, hs, zfs_prop_set, zfs_get_prop_str, lookup_storePut_self]

/-- Witness for C9 at a concrete store and field value. -/
theorem zfs_set_prop_str_empty_noop_roundtrip_witness :
    zfs_set_prop_str [] ( LDD_FSNAME_PROP) (some "") = (0, []) ∧
    zfs_get_prop_str (zfs_set_prop_str [] ( LDD_FSNAME_PROP) (some "lustre1")).2
      ( LDD_FSNAME_PROP) = Except.ok "lustre1" :=
  ⟨(zfs_set_prop_str_empty_noop_roundtrip [] ( LDD_FSNAME_PROP)).2.1,
   (zfs_set_prop_str_empty_noop_roundtrip [] ( LDD_FSNAME_PROP)).2.2.2 "lustre1" (by decide)⟩

theorem zfs_get_prop_int_put (st : PropStore) (prop s : String) :
    zfs_get_prop_int (storePut st prop s) prop =
      if (strtoul64 s).2 ≠ 0 then Except.error (strtoul64 s).2
      else Except.ok ((strtoul64 s).1 % 2 ^ 32) := by
  unfold zfs_get_prop_int
  rw [lookup_storePut_self]

/-- Claim C10: the integer accessors round-trip every 32-bit value, including
those at or above 2 ^ 31: the %i write emits a negative decimal string whose
unsigned parse recovers the original bit pattern after truncation to 32 bits. -/
theorem zfs_prop_int_roundtrip_mod32 (st : PropStore) (prop : String) (v : Nat)
    (hv : v < 2 ^ 32) :
    zfs_get_prop_int (zfs_set_prop_int st prop v).2 prop = Except.ok v := by
  have hm : v % 2 ^ 32 = v := Nat.mod_eq_of_lt hv
  rw [show (zfs_set_prop_int st prop v).2 = storePut st prop (fmtInt32 v) from rfl,
      zfs_get_prop_int_put]
  by_cases h31 : v < 2 ^ 31
  · have hfmt : fmtInt32 v = String.mk (natToDecChars v) := by
      unfold fmtInt32
      rw [hm, if_pos h31]
    have hdv : decValue (natToDecChars v) = v := decValue_natToDecChars v
    have hs : strtoul64 (String.mk (natToDecChars v)) = (v, 0) := by
      have h := strtoul64_digits (natToDecChars v) (natToDecChars_ne_nil v)
        (fun c hc => natToDecChars_all_digits hc) (by rw [hdv]; omega)
      rwa [hdv] at h
    rw [hfmt, hs]
    simp [hm]
    omega
  · have hfmt : fmtInt32 v = String.mk ('-' :: natToDecChars (2 ^ 32 - v)) := by
      unfold fmtInt32
      rw [hm, if_neg h31]
    have hdv : decValue (natToDecChars (2 ^ 32 - v)) = 2 ^ 32 - v :=
      decValue_natToDecChars (2 ^ 32 - v)
    have hs : strtoul64 (String.mk ('-' :: natToDecChars (2 ^ 32 - v))) =
        ((2 ^ 64 - (2 ^ 32 - v)) % 2 ^ 64, 0) := by
      have h := strtoul64_neg_digits (natToDecChars (2 ^ 32 - v))
        (fun c hc => natToDecChars_all_digits hc) (by rw [hdv]; omega)
      rwa [hdv] at h
    have hval : (2 ^ 64 - (2 ^ 32 - v)) % 2 ^ 64 % 2 ^ 32 = v := by omega
    rw [hfmt, hs]
    simp [hval]
    omega

/-- Witness for C10 at a value above 2 ^ 31, written as -1294967296. -/
theorem zfs_prop_int_roundtrip_mod32_witness :
    zfs_get_prop_int (zfs_set_prop_int [] LDD_INDEX_PROP 3000000000).2 LDD_INDEX_PROP =
      Except.ok 3000000000 :=
  zfs_prop_int_roundtrip_mod32 [] LDD_INDEX_PROP 3000000000 (by norm_num)

/-- Claim C4: writing the blob opt1=a opt2=b creates exactly the two
namespaced properties, and the bulk read over exactly those two properties,
in either enumeration order, rebuilds a blob whose token list carries both
opt1=a and opt2=b. -/
theorem param_blob_roundtrip :
    zfs_set_prop_params 3 [] "opt1=a opt2=b" =
      some (0, [("lustre:opt1", "a"), ("lustre:opt2", "b")]) ∧
    zfs_get_prop_params [("lustre:opt1", "a"), ("lustre:opt2", "b")] "" 4096 =
      (0, "opt1=a opt2=b ") ∧
    zfs_get_prop_params [("lustre:opt2", "b"), ("lustre:opt1", "a")] "" 4096 =
      (0, "opt2=b opt1=a ") ∧
    tokenize "opt1=a opt2=b " = ["opt1=a", "opt2=b"] ∧
    tokenize "opt2=b opt1=a " = ["opt2=b", "opt1=a"] := by
  refine ⟨by decide, by decide, by decide, by decide, by decide⟩

/-- Once the loop of zfs_set_prop_params meets a token with no second
nonempty equals-separated segment, the continue statement retries the very
same token, so no amount of fuel produces a result. -/
theorem set_prop_params_loop_stuck (tok : String)
    (h : (splitTokens '=' tok.data).get? 1 = none) :
    ∀ fuel st rest, set_prop_params_loop fuel st (tok :: rest) = none := by
  intro fuel
  induction fuel with
  | zero => intro st rest; rfl
  | succ n ih =>
    intro st rest
    rw [set_prop_params_loop]
    cases hk : (splitTokens '=' tok.data).get? 0 with
    | none => simp only [hk]; exact ih st rest
    | some key => simp only [hk, h]; exact ih st rest

/-- Claim C1: a malformed token is NOT skipped.  The loop body executes
continue without advancing token, so a blob holding a key-less or value-less
token makes zfs_set_prop_params loop forever and the well-formed tokens
after it are never written; the fuel-indexed model returns none for every
fuel, on both malformed shapes named by the spec. -/
theorem zfs_set_prop_params_malformed_hangs :
    (∀ fuel st, zfs_set_prop_params fuel st "nokey opt2=b" = none) ∧
    (∀ fuel st, zfs_set_prop_params fuel st "novalue= opt2=b" = none) := by
  constructor
  · intro fuel st
    have ht : tokenize "nokey opt2=b" = ["nokey", "opt2=b"] := by decide
    rw [zfs_set_prop_params, ht]
    exact set_prop_params_loop_stuck "nokey" (by decide) fuel st ["opt2=b"]
  · intro fuel st
    have ht : tokenize "novalue= opt2=b" = ["novalue=", "opt2=b"] := by decide
    rw [zfs_set_prop_params, ht]
    exact set_prop_params_loop_stuck "novalue=" (by decide) fuel st ["opt2=b"]

/-- Claim C2: the handle is NOT closed on every exit path.  When the dataset
open succeeds and the host-id check then fails, zfs_write_ldd jumps to the
out label, which sits below the zfs_close at out_close: the run ends with
one open and zero closes.  The second conjunct shows the same input with the
skip flag set runs to completion and does balance the handle. -/
theorem zfs_write_ldd_hostid_leak :
    zfs_write_ldd envReadyOpen henvZeroId 2 mopFailnode = some (EINVAL, [], 1, 0) ∧
    zfs_write_ldd envReadyOpen henvZeroId 2 mopFailnodeSkip =
      some (0, [("lustre:version", "0"), ("lustre:flags", "0"), ("lustre:index", "0"),
                ("lustre:failnode", "1")], 1, 1) := by
  refine ⟨by decide, by decide⟩

/-- Claim C5: for a dataset lacking any metadata properties, the verdict of
zfs_is_lustre is decided by whatever the never-initialized stack scratch
record happens to hold: a garbage record with positive version and non-empty
service name makes the predicate answer 1 (reporting the freshly stamped
mount type) on the very same empty dataset for which an all-zero scratch
record makes it answer 0. -/
theorem zfs_is_lustre_reads_uninitialized_scratch :
    envReadyOpen.props = [] ∧
    zfs_is_lustre envReadyOpen "tank/ds" garbageScratch = (1, some LDD_MT_ZFS) ∧
    zfs_is_lustre envReadyOpen "tank/ds" ldd0 = (0, none) := by
  refine ⟨rfl, by decide, by decide⟩

/-- Claim C3 counterexample: with the ready flag unset, zfs_enable_quota does
not fail with the invalid-argument code; it never consults the flag and
returns ENOSYS. -/
theorem zfs_enable_quota_ignores_ready_flag :
    envNotReady.osd_zfs_setup = 0 ∧
    zfs_enable_quota envNotReady mop0 = ENOSYS ∧
    zfs_enable_quota envNotReady mop0 ≠ EINVAL := by
  refine ⟨rfl, rfl, by decide⟩

/-- Claim C3 as amended: with the ready flag unset, zfs_write_ldd,
zfs_read_ldd, zfs_make_lustre, zfs_prepare_lustre, zfs_tune_lustre and
zfs_label_lustre check it first and fail with EINVAL before any other work
(no open is performed); zfs_is_lustre checks it first but answers 0 rather
than an error code; zfs_enable_quota does not check it and returns ENOSYS. -/
theorem not_ready_fail_fast (env : ZfsEnv) (henv : HostidEnv) (fuel : Nat)
    (mop : mkfs_opts) (mnt : mount_opts) (ds dev : String) (ldd scratch : lustre_disk_data)
    (h : env.osd_zfs_setup = 0) :
    zfs_write_ldd env henv fuel mop = some (EINVAL, env.props, 0, 0) ∧
    zfs_read_ldd env ds ldd = (EINVAL, ldd, 0, 0) ∧
    zfs_make_lustre env henv mop = EINVAL ∧
    zfs_prepare_lustre env mop = EINVAL ∧
    zfs_tune_lustre env dev mnt = EINVAL ∧
    zfs_label_lustre env mnt = (EINVAL, env.props, 0, 0) ∧
    zfs_is_lustre env ds scratch = (0, none) ∧
    zfs_enable_quota env mop = ENOSYS := by
  have hc : osd_check_zfs_setup env = false := by
    simp [osd_check_zfs_setup, h]
  refine ⟨?_, ?_, ?_, ?_, ?_, ?_, ?_, rfl⟩ <;>
    simp [zfs_write_ldd, zfs_read_ldd, zfs_make_lustre, zfs_prepare_lustre,
      zfs_tune_lustre, zfs_label_lustre, zfs_is_lustre, hc, h]

/-- Witness for the amended C3 at a concrete not-ready environment. -/
theorem not_ready_fail_fast_witness :
    zfs_write_ldd envNotReady henvZeroId 1 mop0 = some (EINVAL, [], 0, 0) ∧
    zfs_label_lustre envNotReady mnt0 = (EINVAL, [], 0, 0) := by
  have h := not_ready_fail_fast envNotReady henvZeroId 1 mop0 mnt0 "tank/ost1" "tank/ost1"
    ldd0 ldd0 rfl
  exact ⟨h.1, h.2.2.2.2.2.1⟩

/-- Claim C6: the host-id check runs only when the blob mentions the
failover-node token (when it does not, the verdict is success, with no
warning, independent of the host-id files); when it runs and the id resolves
to zero through both files, the absent skip flag gives EINVAL and the set
skip flag gives success with the warning emitted. -/
theorem zfs_check_hostid_spec (henv henv2 : HostidEnv) (mop : mkfs_opts) :
    (strstrB mop.mo_ldd.ldd_params.data PARAM_FAILNODE.data = false →
      zfs_check_hostid henv mop = (0, false) ∧
      zfs_check_hostid henv mop = zfs_check_hostid henv2 mop) ∧
    (strstrB mop.mo_ldd.ldd_params.data PARAM_FAILNODE.data = true →
      henv.spl_hostid = FileRead.okVal 0 →
      etcHostidValue henv = 0 →
      zfs_check_hostid henv mop =
        if mop.mo_flags.mo_nohostid_check then (0, true) else (EINVAL, false)) := by
  constructor
  · intro hno
    constructor <;> simp [zfs_check_hostid, hno]
  · intro hyes hspl hetc
    simp [zfs_check_hostid, hyes, hspl, hetc]

/-- Witness for C6: zero host id fails without the flag, warns with it, and
an unrelated blob skips the check. -/
theorem zfs_check_hostid_spec_witness :
    zfs_check_hostid henvZeroId mopFailnode = (EINVAL, false) ∧
    zfs_check_hostid henvZeroId mopFailnodeSkip = (0, true) ∧
    zfs_check_hostid henvZeroId mop0 = (0, false) := by
  refine ⟨?_, ?_, ?_⟩
  · have h := (zfs_check_hostid_spec henvZeroId henvZeroId mopFailnode).2
      (by decide) (by decide) (by decide)
    exact h.trans (by decide)
  · have h := (zfs_check_hostid_spec henvZeroId henvZeroId mopFailnodeSkip).2
      (by decide) (by decide) (by decide)
    exact h.trans (by decide)
  · exact ((zfs_check_hostid_spec henvZeroId henvZeroId mop0).1 (by decide)).1

/-- Claim C7: during zfs_read_ldd, an absent property skips the bridge entry
and the walk continues; a non-ENOENT error at an entry aborts the walk at
that entry, and the error propagates as the return value of zfs_read_ldd; on
a successful walk with a clean (or ENOENT) bulk enumeration the record gets
ldd_mount_type stamped with LDD_MT_ZFS and the return value is 0. -/
theorem zfs_read_ldd_enoent_tolerant (env : ZfsEnv) (ds : String) (ldd : lustre_disk_data)
    (hsetup : env.osd_zfs_setup = 1) (hopen : env.openFs = true) :
    (∀ b rest l, nvlist_lookup env.props b.zlpb_prop_name = none →
      bridgeReadLoop env.props (b :: rest) l = bridgeReadLoop env.props rest l) ∧
    (∀ b rest l e, bridgeGetResult env.props b l = Except.error e → e ≠ ENOENT →
      bridgeReadLoop env.props (b :: rest) l = Except.error (e, l)) ∧
    (∀ e l2, bridgeReadLoop env.props special_ldd_prop_params ldd = Except.error (e, l2) →
      zfs_read_ldd env ds ldd = (e, l2, 1, 1)) ∧
    (∀ l2, bridgeReadLoop env.props special_ldd_prop_params ldd = Except.ok l2 →
      ((zfs_get_prop_params env.props l2.ldd_params 4096).1 = 0 ∨
        (zfs_get_prop_params env.props l2.ldd_params 4096).1 = ENOENT) →
      zfs_read_ldd env ds ldd =
        (0,
          { l2 with
            ldd_params := (zfs_get_prop_params env.props l2.ldd_params 4096).2,
            ldd_mount_type := LDD_MT_ZFS },
          1, 1)) := by
  have hc : osd_check_zfs_setup env = true := by
    simp [osd_check_zfs_setup, hsetup]
  refine ⟨?_, ?_, ?_, ?_⟩
  · intro b rest l hl
    cases hacc : b.zlpb_accessor with
    | acInt g s => simp [bridgeReadLoop, hacc, zfs_get_prop_int, hl]
    | acStr g s => simp [bridgeReadLoop, hacc, zfs_get_prop_str, hl]
  · intro b rest l e hg hne
    cases hacc : b.zlpb_accessor with
    | acInt g s =>
      rw [bridgeGetResult, hacc] at hg
      cases hget : zfs_get_prop_int env.props b.zlpb_prop_name with
      | ok v => rw [hget] at hg; cases hg
      | error e0 =>
        rw [hget] at hg
        cases hg
        simp [bridgeReadLoop, hacc, hget, hne]
    | acStr g s =>
      rw [bridgeGetResult, hacc] at hg
      cases hget : zfs_get_prop_str env.props b.zlpb_prop_name with
      | ok v => rw [hget] at hg; cases hg
      | error e0 =>
        rw [hget] at hg
        cases hg
        simp [bridgeReadLoop, hacc, hget, hne]
  · intro e l2 hb
    simp [zfs_read_ldd, hc, hopen, hb]
  · intro l2 hb hbulk
    have hno : ¬ ((zfs_get_prop_params env.props l2.ldd_params 4096).1 ≠ 0 ∧
        (zfs_get_prop_params env.props l2.ldd_params 4096).1 ≠ ENOENT) := by
      rcases hbulk with h | h <;> simp [h]
    simp [zfs_read_ldd, hc, hopen, hb, hno]

/-- Witness for C7: the version entry is absent and skipped, the flags entry
is read, and the record comes back stamped with the ZFS mount type. -/
theorem zfs_read_ldd_enoent_tolerant_witness :
    zfs_read_ldd envFlagsOnly "tank/ost1" ldd0 =
      (0, { ldd0 with ldd_flags := 66, ldd_mount_type := LDD_MT_ZFS }, 1, 1) := by
  have h := (zfs_read_ldd_enoent_tolerant envFlagsOnly "tank/ost1" ldd0 rfl rfl).2.2.2
    ({ ldd0 with ldd_flags := 66 }) (by rfl) (Or.inl (by rfl))
  exact h.trans (by rfl)

/-- Claim C8: with the library ready, zfs_read_ldd fails with the initial
EINVAL, without reading anything (no open recorded), exactly when both the
filesystem open and the snapshot open fail; when the snapshot open succeeds
the run is identical to one in which the filesystem open had succeeded, so a
snapshot-only dataset is read through the fallback path. -/
theorem zfs_read_ldd_snapshot_fallback (env : ZfsEnv) (ds : String) (ldd : lustre_disk_data)
    (hsetup : env.osd_zfs_setup = 1) :
    (env.openFs = false → env.openSnap = false →
      zfs_read_ldd env ds ldd = (EINVAL, ldd, 0, 0)) ∧
    (env.openSnap = true →
      zfs_read_ldd env ds ldd = zfs_read_ldd { env with openFs := true } ds ldd) := by
  have hc : osd_check_zfs_setup env = true := by
    simp [osd_check_zfs_setup, hsetup]
  have hc2 : osd_check_zfs_setup { env with openFs := true } = true := by
    simp [osd_check_zfs_setup, hsetup]
  constructor
  · intro h1 h2
    simp [zfs_read_ldd, hc, h1, h2]
  · intro hsnap
    simp [zfs_read_ldd, osd_check_zfs_setup, hsetup, hsnap]

/-- Witness for C8: a snapshot-only dataset reads like an open filesystem,
and a dataset that is neither fails with EINVAL and no open. -/
theorem zfs_read_ldd_snapshot_fallback_witness :
    zfs_read_ldd envSnapOnly "tank/fs@snap" ldd0 =
      zfs_read_ldd { envSnapOnly with openFs := true } "tank/fs@snap" ldd0 ∧
    zfs_read_ldd envNoOpen "tank/none" ldd0 = (EINVAL, ldd0, 0, 0) :=
  ⟨(zfs_read_ldd_snapshot_fallback envSnapOnly "tank/fs@snap" ldd0 rfl).2 rfl,
   (zfs_read_ldd_snapshot_fallback envNoOpen "tank/none" ldd0 rfl).1 rfl rfl⟩

end MountUtilsZfs
